import Mathlib

/-!
Verification of the DaVinci NAND flash controller driver
(drivers/mtd/nand/raw/davinci_nand.c).

The driver's ECC correction helpers, ECC code packing, chip attachment
configuration and device-property parsing are embedded shallowly as Lean
functions, and the behavioural claims about them are proved below the
definitions.

Error numbers are the asm-generic errno values used by the kernel; the
driver returns their negations.
-/

def EINVAL : Int := 22
def EBUSY : Int := 16
def EIO_ERR : Int := 5  -- EIO; the plain name is taken by the Lean core library
def ENOMEM : Int := 12
def EBADMSG : Int := 74

/-! ## Bit-manipulation helper lemmas

The driver works on bytes and 32-bit words with masks, shifts and ors.
The helpers below convert those operations to division/modulus arithmetic
so that `omega` can finish the goals.
-/

/-- Masking with a shifted mask equals shifting down, masking, shifting up. -/
theorem and_mask_shift (x m k : Nat) : x &&& (m <<< k) = ((x >>> k) &&& m) <<< k := by
  apply Nat.eq_of_testBit_eq
  intro i
  simp only [Nat.testBit_and, Nat.testBit_shiftLeft, Nat.testBit_shiftRight]
  by_cases h : k ≤ i
  · have hik : k + (i - k) = i := by omega
    simp [ge_iff_le, h, hik, Bool.and_comm, Bool.and_left_comm]
  · simp [ge_iff_le, h]

/-- An or of disjoint parts is an addition: the low part lives below bit k. -/
theorem lor_eq_add_of_lt {a : Nat} (b : Nat) {k : Nat} (h : a < 2 ^ k) :
    a ||| b * 2 ^ k = b * 2 ^ k + a := by
  rw [Nat.or_comm, Nat.mul_comm b (2 ^ k), ← Nat.mul_add_lt_is_or h, Nat.mul_comm]

theorem and_mask_ff (x : Nat) : x &&& 0xff = x % 256 := by
  simpa using Nat.and_pow_two_sub_one_eq_mod x 8

theorem and_mask_03 (x : Nat) : x &&& 0x03 = x % 4 := by
  simpa using Nat.and_pow_two_sub_one_eq_mod x 2

theorem and_mask_07 (x : Nat) : x &&& 7 = x % 8 := by
  simpa using Nat.and_pow_two_sub_one_eq_mod x 3

theorem and_mask_0f (x : Nat) : x &&& 0x0f = x % 16 := by
  simpa using Nat.and_pow_two_sub_one_eq_mod x 4

theorem and_mask_3f (x : Nat) : x &&& 0x3f = x % 64 := by
  simpa using Nat.and_pow_two_sub_one_eq_mod x 6

theorem and_mask_3ff (x : Nat) : x &&& 0x3ff = x % 1024 := by
  simpa using Nat.and_pow_two_sub_one_eq_mod x 10

theorem and_mask_fff (x : Nat) : x &&& 0xfff = x % 4096 := by
  simpa using Nat.and_pow_two_sub_one_eq_mod x 12

theorem and_mask_fc (x : Nat) : x &&& 0xfc = x / 4 % 64 * 4 := by
  have h0 : (0xfc : Nat) = 0x3f <<< 2 := rfl
  rw [h0, and_mask_shift, and_mask_3f, Nat.shiftLeft_eq, Nat.shiftRight_eq_div_pow]

theorem and_mask_f0 (x : Nat) : x &&& 0xf0 = x / 16 % 16 * 16 := by
  have h0 : (0xf0 : Nat) = 0x0f <<< 4 := rfl
  rw [h0, and_mask_shift, and_mask_0f, Nat.shiftLeft_eq, Nat.shiftRight_eq_div_pow]

theorem and_mask_c0 (x : Nat) : x &&& 0xc0 = x / 64 % 4 * 64 := by
  have h0 : (0xc0 : Nat) = 0x03 <<< 6 := rfl
  rw [h0, and_mask_shift, and_mask_03, Nat.shiftLeft_eq, Nat.shiftRight_eq_div_pow]

theorem and_mask_3c0 (x : Nat) : x &&& 0x3c0 = x / 64 % 16 * 64 := by
  have h0 : (0x3c0 : Nat) = 0x0f <<< 6 := rfl
  rw [h0, and_mask_shift, and_mask_0f, Nat.shiftLeft_eq, Nat.shiftRight_eq_div_pow]

theorem and_mask_3fc (x : Nat) : x &&& 0x3fc = x / 4 % 256 * 4 := by
  have h0 : (0x3fc : Nat) = 0xff <<< 2 := rfl
  rw [h0, and_mask_shift, and_mask_ff, Nat.shiftLeft_eq, Nat.shiftRight_eq_div_pow]

theorem and_mask_300 (x : Nat) : x &&& 0x300 = x / 256 % 4 * 256 := by
  have h0 : (0x300 : Nat) = 0x03 <<< 8 := rfl
  rw [h0, and_mask_shift, and_mask_03, Nat.shiftLeft_eq, Nat.shiftRight_eq_div_pow]

theorem and_mask_3f0 (x : Nat) : x &&& 0x3f0 = x / 16 % 64 * 16 := by
  have h0 : (0x3f0 : Nat) = 0x3f <<< 4 := rfl
  rw [h0, and_mask_shift, and_mask_3f, Nat.shiftLeft_eq, Nat.shiftRight_eq_div_pow]

/-- A nonzero number with `x &&& (x - 1) = 0` is a power of two (the test
used by `nand_davinci_correct_1bit` for a single-bit ECC-area error). -/
theorem pow_two_of_and_pred {x : Nat} (hx : x ≠ 0) (h : x &&& (x - 1) = 0) :
    ∃ k, x = 2 ^ k := by
  induction x using Nat.strong_induction_on with
  | _ x ih =>
    rcases Nat.even_or_odd x with he | ho
    · have hm2 : x % 2 = 0 := Nat.even_iff.mp he
      have hm : x / 2 ≠ 0 := by omega
      have hdiv : (x &&& (x - 1)) / 2 = 0 := by rw [h]
      rw [Nat.and_div_two] at hdiv
      have hx1 : (x - 1) / 2 = x / 2 - 1 := by omega
      rw [hx1] at hdiv
      obtain ⟨k, hk⟩ := ih (x / 2) (by omega) hm hdiv
      exact ⟨k + 1, by rw [pow_succ]; omega⟩
    · have hm2 : x % 2 = 1 := Nat.odd_iff.mp ho
      by_cases h1 : x = 1
      · exact ⟨0, by simpa using h1⟩
      · exfalso
        have hdiv : (x &&& (x - 1)) / 2 = 0 := by rw [h]
        rw [Nat.and_div_two] at hdiv
        have hx1 : (x - 1) / 2 = x / 2 := by omega
        rw [hx1, Nat.and_self] at hdiv
        omega

/-- A power of two never satisfies the 1-bit-ECC correctable-error pattern
`((diff >> 12) ^ diff) & 0xfff = 0xfff` (which needs twelve disagreeing
bit pairs, hence at least twelve set bits). -/
theorem pow_two_not_correctable {k : Nat} (hk : k < 24) :
    (((2 ^ k >>> 12) ^^^ 2 ^ k) &&& 0xfff) ≠ 0xfff := by
  revert hk
  revert k
  decide

/-! ## 1-bit hardware ECC correction (`nand_davinci_correct_1bit`)

The data buffer is a list of byte values, the two ECC codes are byte
triples.  The chip ECC size (`chip->ecc.size`) is a parameter; the driver
always configures it to 512.
-/

/-- Little-endian 24-bit value built from three ECC bytes, exactly as
`nand_davinci_correct_1bit` assembles `eccNand` and `eccCalc`. -/
def ecc24le (b0 b1 b2 : Nat) : Nat := b0 ||| b1 <<< 8 ||| b2 <<< 16

/-- Shallow embedding of `nand_davinci_correct_1bit`.  Returns the C return
value together with the (possibly corrected) data buffer. -/
def nand_davinci_correct_1bit (ecc_size : Nat) (dat : List Nat)
    (r0 r1 r2 c0 c1 c2 : Nat) : Int × List Nat :=
  let eccNand := ecc24le r0 r1 r2
  let eccCalc := ecc24le c0 c1 c2
  let diff := eccCalc ^^^ eccNand
  if diff ≠ 0 then
    if (((diff >>> 12) ^^^ diff) &&& 0xfff) = 0xfff then
      if diff >>> (12 + 3) < ecc_size then
        (1, dat.set (diff >>> (12 + 3))
              ((dat.getD (diff >>> (12 + 3)) 0) ^^^ (1 <<< ((diff >>> 12) &&& 7))))
      else (-EBADMSG, dat)
    else if diff &&& (diff - 1) = 0 then (1, dat)
    else (-EBADMSG, dat)
  else (0, dat)

/-! ## 4-bit ECC code packing and unpacking

`nand_davinci_calculate_4bit` packs eight 10-bit syndrome values (read as
the low and high halves of four 32-bit registers) into ten bytes, in two
five-byte passes; `nand_davinci_correct_4bit` unpacks ten bytes back into
eight 10-bit values through little-endian 16-bit words.
-/

/-- The ten-byte packing loop of `nand_davinci_calculate_4bit`, with its
two five-byte passes unrolled.  `p0` through `p3` correspond to the words
`raw_ecc[0]` through `raw_ecc[3]`: each holds two 10-bit values in the low
and high 16-bit halves. -/
def nand_davinci_pack_ecc10 (v0 v1 v2 v3 v4 v5 v6 v7 : Nat) : List Nat :=
  let p0 := v0 ||| v1 <<< 16
  let p1 := v2 ||| v3 <<< 16
  let p2 := v4 ||| v5 <<< 16
  let p3 := v6 ||| v7 <<< 16
  [ p0 &&& 0xff,
    ((p0 >>> 8) &&& 0x03) ||| ((p0 >>> 14) &&& 0xfc),
    ((p0 >>> 22) &&& 0x0f) ||| ((p1 <<< 4) &&& 0xf0),
    ((p1 >>> 4) &&& 0x3f) ||| ((p1 >>> 10) &&& 0xc0),
    (p1 >>> 18) &&& 0xff,
    p2 &&& 0xff,
    ((p2 >>> 8) &&& 0x03) ||| ((p2 >>> 14) &&& 0xfc),
    ((p2 >>> 22) &&& 0x0f) ||| ((p3 <<< 4) &&& 0xf0),
    ((p3 >>> 4) &&& 0x3f) ||| ((p3 >>> 10) &&& 0xc0),
    (p3 >>> 18) &&& 0xff ]

/-- The `ecc10[0..7]` unpacking of `nand_davinci_correct_4bit`: the ten
bytes are read as five little-endian 16-bit words (the driver type-puns
the byte buffer as `unsigned short *`), then sliced into 10-bit values. -/
def nand_davinci_unpack_ecc10 : List Nat → List Nat
  | [c0, c1, c2, c3, c4, c5, c6, c7, c8, c9] =>
      let e0 := c0 ||| c1 <<< 8
      let e1 := c2 ||| c3 <<< 8
      let e2 := c4 ||| c5 <<< 8
      let e3 := c6 ||| c7 <<< 8
      let e4 := c8 ||| c9 <<< 8
      [ (e0 >>> 0) &&& 0x3ff,
        ((e0 >>> 10) &&& 0x3f) ||| ((e1 <<< 6) &&& 0x3c0),
        (e1 >>> 4) &&& 0x3ff,
        ((e1 >>> 14) &&& 0x3) ||| ((e2 <<< 2) &&& 0x3fc),
        (e2 >>> 8) ||| ((e3 <<< 8) &&& 0x300),
        (e3 >>> 2) &&& 0x3ff,
        ((e3 >>> 12) &&& 0xf) ||| ((e4 <<< 4) &&& 0x3f0),
        (e4 >>> 6) &&& 0x3ff ]
  | _ => []

/-! ### Or-to-add and shift-to-arithmetic conversions -/

theorem lor_mul4 {a : Nat} (b : Nat) (h : a < 4) : a ||| b * 4 = a + b * 4 := by
  have h4 : (4 : Nat) = 2 ^ 2 := rfl
  rw [h4, lor_eq_add_of_lt b (by omega), Nat.add_comm]

theorem lor_mul16 {a : Nat} (b : Nat) (h : a < 16) : a ||| b * 16 = a + b * 16 := by
  have h16 : (16 : Nat) = 2 ^ 4 := rfl
  rw [h16, lor_eq_add_of_lt b (by omega), Nat.add_comm]

theorem lor_mul64 {a : Nat} (b : Nat) (h : a < 64) : a ||| b * 64 = a + b * 64 := by
  have h64 : (64 : Nat) = 2 ^ 6 := rfl
  rw [h64, lor_eq_add_of_lt b (by omega), Nat.add_comm]

theorem lor_mul256 {a : Nat} (b : Nat) (h : a < 256) : a ||| b * 256 = a + b * 256 := by
  have h256 : (256 : Nat) = 2 ^ 8 := rfl
  rw [h256, lor_eq_add_of_lt b (by omega), Nat.add_comm]

theorem lor_mul65536 {a : Nat} (b : Nat) (h : a < 65536) :
    a ||| b * 65536 = a + b * 65536 := by
  have h65536 : (65536 : Nat) = 2 ^ 16 := rfl
  rw [h65536, lor_eq_add_of_lt b (by omega), Nat.add_comm]

theorem lor_mod_mul4 (x b : Nat) : x % 4 ||| b * 4 = x % 4 + b * 4 :=
  lor_mul4 b (Nat.mod_lt x (by omega))

theorem lor_mod_mul16 (x b : Nat) : x % 16 ||| b * 16 = x % 16 + b * 16 :=
  lor_mul16 b (Nat.mod_lt x (by omega))

theorem lor_mod_mul64 (x b : Nat) : x % 64 ||| b * 64 = x % 64 + b * 64 :=
  lor_mul64 b (Nat.mod_lt x (by omega))

theorem lor_mod_mul256 (x b : Nat) : x % 256 ||| b * 256 = x % 256 + b * 256 :=
  lor_mul256 b (Nat.mod_lt x (by omega))

theorem shl2 (x : Nat) : x <<< 2 = x * 4 := by rw [Nat.shiftLeft_eq]

theorem shl4 (x : Nat) : x <<< 4 = x * 16 := by rw [Nat.shiftLeft_eq]

theorem shl6 (x : Nat) : x <<< 6 = x * 64 := by rw [Nat.shiftLeft_eq]

theorem shl8 (x : Nat) : x <<< 8 = x * 256 := by rw [Nat.shiftLeft_eq]

theorem shl16 (x : Nat) : x <<< 16 = x * 65536 := by rw [Nat.shiftLeft_eq]

theorem shr2 (x : Nat) : x >>> 2 = x / 4 := by rw [Nat.shiftRight_eq_div_pow]

theorem shr4 (x : Nat) : x >>> 4 = x / 16 := by rw [Nat.shiftRight_eq_div_pow]

theorem shr6 (x : Nat) : x >>> 6 = x / 64 := by rw [Nat.shiftRight_eq_div_pow]

theorem shr8 (x : Nat) : x >>> 8 = x / 256 := by rw [Nat.shiftRight_eq_div_pow]

theorem shr10 (x : Nat) : x >>> 10 = x / 1024 := by rw [Nat.shiftRight_eq_div_pow]

theorem shr12 (x : Nat) : x >>> 12 = x / 4096 := by rw [Nat.shiftRight_eq_div_pow]

theorem shr14 (x : Nat) : x >>> 14 = x / 16384 := by rw [Nat.shiftRight_eq_div_pow]

theorem shr18 (x : Nat) : x >>> 18 = x / 262144 := by rw [Nat.shiftRight_eq_div_pow]

theorem shr22 (x : Nat) : x >>> 22 = x / 4194304 := by rw [Nat.shiftRight_eq_div_pow]

/-- Closed arithmetic form of the ten packed ECC bytes. -/
theorem nand_davinci_pack_ecc10_eq (v0 v1 v2 v3 v4 v5 v6 v7 : Nat)
    (h0 : v0 < 1024) (h1 : v1 < 1024) (h2 : v2 < 1024) (h3 : v3 < 1024)
    (h4 : v4 < 1024) (h5 : v5 < 1024) (h6 : v6 < 1024) (h7 : v7 < 1024) :
    nand_davinci_pack_ecc10 v0 v1 v2 v3 v4 v5 v6 v7 =
      [v0 % 256, v0 / 256 + v1 % 64 * 4,
       v1 / 64 + v2 % 16 * 16, v2 / 16 + v3 % 4 * 64, v3 / 4,
       v4 % 256, v4 / 256 + v5 % 64 * 4,
       v5 / 64 + v6 % 16 * 16, v6 / 16 + v7 % 4 * 64, v7 / 4] := by
  simp only [nand_davinci_pack_ecc10]
  rw [shl16 v1, shl16 v3, shl16 v5, shl16 v7]
  rw [lor_mul65536 v1 (by omega), lor_mul65536 v3 (by omega),
      lor_mul65536 v5 (by omega), lor_mul65536 v7 (by omega)]
  simp only [and_mask_ff, and_mask_03, and_mask_fc, and_mask_0f, and_mask_f0,
    and_mask_3f, and_mask_c0, shl4, shr4, shr8, shr10, shr14, shr18, shr22,
    lor_mod_mul4, lor_mod_mul16, lor_mod_mul64]
  simp only [List.cons.injEq, and_true]
  refine ⟨by omega, by omega, by omega, by omega, by omega,
          by omega, by omega, by omega, by omega, by omega⟩

/-- Closed arithmetic form of the eight unpacked 10-bit values, for byte
inputs. -/
theorem nand_davinci_unpack_ecc10_eq (c0 c1 c2 c3 c4 c5 c6 c7 c8 c9 : Nat)
    (h0 : c0 < 256) (h1 : c1 < 256) (h2 : c2 < 256) (h3 : c3 < 256)
    (h4 : c4 < 256) (h5 : c5 < 256) (h6 : c6 < 256) (h7 : c7 < 256)
    (h8 : c8 < 256) (h9 : c9 < 256) :
    nand_davinci_unpack_ecc10 [c0, c1, c2, c3, c4, c5, c6, c7, c8, c9] =
      [ (c0 + c1 * 256) % 1024,
        (c0 + c1 * 256) / 1024 % 64 + (c2 + c3 * 256) % 16 * 64,
        (c2 + c3 * 256) / 16 % 1024,
        (c2 + c3 * 256) / 16384 % 4 + (c4 + c5 * 256) % 256 * 4,
        (c4 + c5 * 256) / 256 + (c6 + c7 * 256) % 4 * 256,
        (c6 + c7 * 256) / 4 % 1024,
        (c6 + c7 * 256) / 4096 % 16 + (c8 + c9 * 256) % 64 * 16,
        (c8 + c9 * 256) / 64 % 1024 ] := by
  simp only [nand_davinci_unpack_ecc10, shl8]
  rw [lor_mul256 c1 h0, lor_mul256 c3 h2, lor_mul256 c5 h4,
      lor_mul256 c7 h6, lor_mul256 c9 h8]
  simp only [Nat.shiftRight_zero, and_mask_3ff, and_mask_3f, and_mask_3c0,
    and_mask_03, and_mask_3fc, and_mask_300, and_mask_0f, and_mask_3f0,
    shl2, shl4, shl6, shl8, shr2, shr4, shr6, shr8, shr10, shr12, shr14,
    lor_mod_mul4, lor_mod_mul16, lor_mod_mul64]
  rw [lor_mul256 ((c6 + c7 * 256) * 256 / 256 % 4)
      (show (c4 + c5 * 256) / 256 < 256 by omega)]
  simp only [List.cons.injEq, and_true]
  repeat' apply And.intro
  any_goals exact True.intro
  all_goals omega

/-- Claim C2: the 10-byte ECC packing and unpacking are mutually inverse:
for every sequence of eight 10-bit values (each < 1024), packing them into
ten bytes by the scheme of `nand_davinci_calculate_4bit` and unpacking
those bytes by the little-endian 16-bit-word scheme of
`nand_davinci_correct_4bit` yields the original eight values. -/
theorem ecc10_pack_unpack_roundtrip (v0 v1 v2 v3 v4 v5 v6 v7 : Nat)
    (h0 : v0 < 1024) (h1 : v1 < 1024) (h2 : v2 < 1024) (h3 : v3 < 1024)
    (h4 : v4 < 1024) (h5 : v5 < 1024) (h6 : v6 < 1024) (h7 : v7 < 1024) :
    nand_davinci_unpack_ecc10 (nand_davinci_pack_ecc10 v0 v1 v2 v3 v4 v5 v6 v7) =
      [v0, v1, v2, v3, v4, v5, v6, v7] := by
  rw [nand_davinci_pack_ecc10_eq v0 v1 v2 v3 v4 v5 v6 v7 h0 h1 h2 h3 h4 h5 h6 h7,
      nand_davinci_unpack_ecc10_eq _ _ _ _ _ _ _ _ _ _
        (by omega) (by omega) (by omega) (by omega) (by omega)
        (by omega) (by omega) (by omega) (by omega) (by omega)]
  simp only [List.cons.injEq, and_true]
  repeat' apply And.intro
  all_goals first
  | exact True.intro
  | omega

/-- Witness for claim C2 at a concrete tuple of 10-bit values. -/
theorem ecc10_pack_unpack_roundtrip_witness :
    (513 < 1024 ∧ 1023 < 1024 ∧ 0 < 1024 ∧ 341 < 1024 ∧
     682 < 1024 ∧ 777 < 1024 ∧ 101 < 1024 ∧ 900 < 1024) ∧
    nand_davinci_unpack_ecc10 (nand_davinci_pack_ecc10 513 1023 0 341 682 777 101 900) =
      [513, 1023, 0, 341, 682, 777, 101, 900] :=
  ⟨by decide,
   ecc10_pack_unpack_roundtrip 513 1023 0 341 682 777 101 900
     (by decide) (by decide) (by decide) (by decide)
     (by decide) (by decide) (by decide) (by decide)⟩

/-! ## Case analysis of `nand_davinci_correct_1bit` (claim C1) -/

/-- The `diff` value computed by `nand_davinci_correct_1bit`:
XOR of the two little-endian 24-bit ECC values. -/
def ecc1bitDiff (r0 r1 r2 c0 c1 c2 : Nat) : Nat :=
  ecc24le c0 c1 c2 ^^^ ecc24le r0 r1 r2

/-- The branch structure of `nand_davinci_correct_1bit` with `diff`
abstracted; definitionally equal to the full function. -/
def correct_1bit_core (ecc_size : Nat) (dat : List Nat) (diff : Nat) : Int × List Nat :=
  if diff ≠ 0 then
    if (((diff >>> 12) ^^^ diff) &&& 0xfff) = 0xfff then
      if diff >>> 15 < ecc_size then
        (1, dat.set (diff >>> 15)
              ((dat.getD (diff >>> 15) 0) ^^^ (1 <<< ((diff >>> 12) &&& 7))))
      else (-EBADMSG, dat)
    else if diff &&& (diff - 1) = 0 then (1, dat)
    else (-EBADMSG, dat)
  else (0, dat)

theorem correct_1bit_eq_core (ecc_size : Nat) (dat : List Nat) (r0 r1 r2 c0 c1 c2 : Nat) :
    nand_davinci_correct_1bit ecc_size dat r0 r1 r2 c0 c1 c2 =
      correct_1bit_core ecc_size dat (ecc1bitDiff r0 r1 r2 c0 c1 c2) := rfl

theorem ecc24le_lt (b0 b1 b2 : Nat) (h0 : b0 < 256) (h1 : b1 < 256) (h2 : b2 < 256) :
    ecc24le b0 b1 b2 < 2 ^ 24 := by
  unfold ecc24le
  apply Nat.or_lt_two_pow
  · apply Nat.or_lt_two_pow
    · omega
    · rw [shl8]; omega
  · rw [shl16]; omega

theorem correct_1bit_core_zero (ecc_size : Nat) (dat : List Nat) :
    correct_1bit_core ecc_size dat 0 = (0, dat) := by
  simp [correct_1bit_core]

theorem correct_1bit_core_fix (ecc_size : Nat) (dat : List Nat) (diff : Nat)
    (hpat : (((diff >>> 12) ^^^ diff) &&& 0xfff) = 0xfff)
    (hlt : diff >>> 15 < ecc_size) :
    correct_1bit_core ecc_size dat diff =
      ((1 : Int), dat.set (diff >>> 15)
            ((dat.getD (diff >>> 15) 0) ^^^ 2 ^ ((diff >>> 12) &&& 7))) := by
  have hne : diff ≠ 0 := by rintro rfl; simp at hpat
  simp only [correct_1bit_core, Nat.one_shiftLeft]
  rw [if_pos hne, if_pos hpat, if_pos hlt]

theorem correct_1bit_core_oob (ecc_size : Nat) (dat : List Nat) (diff : Nat)
    (hpat : (((diff >>> 12) ^^^ diff) &&& 0xfff) = 0xfff)
    (hge : ¬ diff >>> 15 < ecc_size) :
    correct_1bit_core ecc_size dat diff = (-EBADMSG, dat) := by
  have hne : diff ≠ 0 := by rintro rfl; simp at hpat
  simp only [correct_1bit_core]
  rw [if_pos hne, if_pos hpat, if_neg hge]

theorem correct_1bit_core_single (ecc_size : Nat) (dat : List Nat) (k : Nat)
    (hk : k < 24) :
    correct_1bit_core ecc_size dat (2 ^ k) = ((1 : Int), dat) := by
  have hne : (2 : Nat) ^ k ≠ 0 := Nat.pos_iff_ne_zero.mp (Nat.two_pow_pos k)
  have hnpat := pow_two_not_correctable hk
  have hand : 2 ^ k &&& (2 ^ k - 1) = 0 := by
    rw [Nat.and_pow_two_sub_one_eq_mod]
    exact Nat.mod_self (2 ^ k)
  simp only [correct_1bit_core]
  rw [if_pos hne, if_neg hnpat, if_pos hand]

theorem correct_1bit_core_bad (ecc_size : Nat) (dat : List Nat) (diff : Nat)
    (hne : diff ≠ 0)
    (hnpat : ¬ (((diff >>> 12) ^^^ diff) &&& 0xfff) = 0xfff)
    (hand : diff &&& (diff - 1) ≠ 0) :
    correct_1bit_core ecc_size dat diff = (-EBADMSG, dat) := by
  simp only [correct_1bit_core]
  rw [if_pos hne, if_neg hnpat, if_neg hand]

/-- Claim C1: for every 512-byte data buffer and every pair of 3-byte ECC
codes, `nand_davinci_correct_1bit` with `chip->ecc.size = 512` behaves as
follows, where `diff` is the XOR of the two little-endian 24-bit ECC
values: if `diff = 0` it returns 0 with the buffer unchanged; if
`((diff >> 12) ^ diff) & 0xfff = 0xfff` and `diff >> 15 < 512` it flips
exactly bit `(diff >> 12) & 7` of byte `diff >> 15` and returns 1; if the
pattern holds but `diff >> 15 >= 512` it returns `-EBADMSG` with the
buffer unchanged; if `diff` is nonzero with exactly one bit set it
returns 1 with the buffer unchanged; otherwise it returns `-EBADMSG`
with the buffer unchanged. -/
theorem nand_davinci_correct_1bit_spec (dat : List Nat) (r0 r1 r2 c0 c1 c2 : Nat)
    (hlen : dat.length = 512)
    (hr0 : r0 < 256) (hr1 : r1 < 256) (hr2 : r2 < 256)
    (hc0 : c0 < 256) (hc1 : c1 < 256) (hc2 : c2 < 256) :
    (ecc1bitDiff r0 r1 r2 c0 c1 c2 = 0 →
      nand_davinci_correct_1bit 512 dat r0 r1 r2 c0 c1 c2 = (0, dat)) ∧
    ((((ecc1bitDiff r0 r1 r2 c0 c1 c2 >>> 12) ^^^ ecc1bitDiff r0 r1 r2 c0 c1 c2) &&&
        0xfff) = 0xfff →
      ecc1bitDiff r0 r1 r2 c0 c1 c2 >>> 15 < 512 →
      (nand_davinci_correct_1bit 512 dat r0 r1 r2 c0 c1 c2).1 = 1 ∧
      (nand_davinci_correct_1bit 512 dat r0 r1 r2 c0 c1 c2).2.length = 512 ∧
      (∀ j, j ≠ ecc1bitDiff r0 r1 r2 c0 c1 c2 >>> 15 →
        (nand_davinci_correct_1bit 512 dat r0 r1 r2 c0 c1 c2).2.getD j 0 =
          dat.getD j 0) ∧
      (nand_davinci_correct_1bit 512 dat r0 r1 r2 c0 c1 c2).2.getD
          (ecc1bitDiff r0 r1 r2 c0 c1 c2 >>> 15) 0 =
        dat.getD (ecc1bitDiff r0 r1 r2 c0 c1 c2 >>> 15) 0 ^^^
          2 ^ ((ecc1bitDiff r0 r1 r2 c0 c1 c2 >>> 12) &&& 7)) ∧
    ((((ecc1bitDiff r0 r1 r2 c0 c1 c2 >>> 12) ^^^ ecc1bitDiff r0 r1 r2 c0 c1 c2) &&&
        0xfff) = 0xfff →
      512 ≤ ecc1bitDiff r0 r1 r2 c0 c1 c2 >>> 15 →
      nand_davinci_correct_1bit 512 dat r0 r1 r2 c0 c1 c2 = (-EBADMSG, dat)) ∧
    (∀ k, ecc1bitDiff r0 r1 r2 c0 c1 c2 = 2 ^ k →
      nand_davinci_correct_1bit 512 dat r0 r1 r2 c0 c1 c2 = (1, dat)) ∧
    (ecc1bitDiff r0 r1 r2 c0 c1 c2 ≠ 0 →
      ¬ ((((ecc1bitDiff r0 r1 r2 c0 c1 c2 >>> 12) ^^^ ecc1bitDiff r0 r1 r2 c0 c1 c2) &&&
        0xfff) = 0xfff) →
      (∀ k, ecc1bitDiff r0 r1 r2 c0 c1 c2 ≠ 2 ^ k) →
      nand_davinci_correct_1bit 512 dat r0 r1 r2 c0 c1 c2 = (-EBADMSG, dat)) := by
  have hcore := correct_1bit_eq_core 512 dat r0 r1 r2 c0 c1 c2
  have hdlt : ecc1bitDiff r0 r1 r2 c0 c1 c2 < 2 ^ 24 := by
    unfold ecc1bitDiff
    exact Nat.xor_lt_two_pow (ecc24le_lt c0 c1 c2 hc0 hc1 hc2)
      (ecc24le_lt r0 r1 r2 hr0 hr1 hr2)
  refine ⟨?_, ?_, ?_, ?_, ?_⟩
  · intro h
    rw [hcore, h]
    exact correct_1bit_core_zero 512 dat
  · intro hpat hlt
    rw [hcore, correct_1bit_core_fix 512 dat _ hpat hlt]
    refine ⟨rfl, by simp [hlen], ?_, ?_⟩
    · intro j hj
      simp only [List.getD_eq_getElem?_getD]
      rw [List.getElem?_set_ne (Ne.symm hj)]
    · simp only [List.getD_eq_getElem?_getD]
      rw [List.getElem?_set_self (by omega)]
      rfl
  · intro hpat hge
    rw [hcore]
    exact correct_1bit_core_oob 512 dat _ hpat (by omega)
  · intro k hk
    have hk24 : k < 24 := by
      by_contra hh
      push_neg at hh
      have h2 : (2 : Nat) ^ 24 ≤ 2 ^ k := Nat.pow_le_pow_right (by omega) hh
      omega
    rw [hcore, hk]
    exact correct_1bit_core_single 512 dat k hk24
  · intro hne hnpat hnp2
    rw [hcore]
    refine correct_1bit_core_bad 512 dat _ hne hnpat ?_
    intro hand
    obtain ⟨k, hk⟩ := pow_two_of_and_pred hne hand
    exact hnp2 k hk

/-- Witness for claim C1: a concrete single-bit error (diff = 0xfff) is
corrected in byte 0, bit 0, of an all-sevens buffer. -/
theorem nand_davinci_correct_1bit_spec_witness :
    (List.replicate 512 7).length = 512 ∧
    (255 < 256 ∧ 15 < 256 ∧ 0 < 256) ∧
    (((ecc1bitDiff 255 15 0 0 0 0 >>> 12) ^^^ ecc1bitDiff 255 15 0 0 0 0) &&& 0xfff)
      = 0xfff ∧
    ecc1bitDiff 255 15 0 0 0 0 >>> 15 < 512 ∧
    ((nand_davinci_correct_1bit 512 (List.replicate 512 7) 255 15 0 0 0 0).1 = 1 ∧
     (nand_davinci_correct_1bit 512 (List.replicate 512 7) 255 15 0 0 0 0).2.length = 512 ∧
     (∀ j, j ≠ ecc1bitDiff 255 15 0 0 0 0 >>> 15 →
       (nand_davinci_correct_1bit 512 (List.replicate 512 7) 255 15 0 0 0 0).2.getD j 0 =
         (List.replicate 512 7).getD j 0) ∧
     (nand_davinci_correct_1bit 512 (List.replicate 512 7) 255 15 0 0 0 0).2.getD
         (ecc1bitDiff 255 15 0 0 0 0 >>> 15) 0 =
       (List.replicate 512 7).getD (ecc1bitDiff 255 15 0 0 0 0 >>> 15) 0 ^^^
         2 ^ ((ecc1bitDiff 255 15 0 0 0 0 >>> 12) &&& 7)) := by
  have h := nand_davinci_correct_1bit_spec (List.replicate 512 7) 255 15 0 0 0 0
    (List.length_replicate 512 7) (by decide) (by decide) (by decide) (by decide)
    (by decide) (by decide)
  exact ⟨List.length_replicate 512 7, by decide, by decide, by decide,
    h.2.1 (by decide) (by decide)⟩

/-! ## Chip attachment (`davinci_nand_attach_chip`) and removal

The ECC configuration installed on the chip is modelled structurally:
callback pointers become tags naming the driver functions, the OOB layout
becomes a tag naming the `mtd_ooblayout_ops` that `mtd_set_ooblayout`
would install.  Flag constants carry their values from
include/linux/mtd/rawnand.h and include/linux/mtd/bbm.h.
-/

inductive NandEccEngineType
  | NAND_ECC_ENGINE_TYPE_INVALID
  | NAND_ECC_ENGINE_TYPE_NONE
  | NAND_ECC_ENGINE_TYPE_SOFT
  | NAND_ECC_ENGINE_TYPE_ON_DIE
  | NAND_ECC_ENGINE_TYPE_ON_HOST
deriving DecidableEq

inductive NandEccPlacement
  | NAND_ECC_PLACEMENT_UNKNOWN
  | NAND_ECC_PLACEMENT_OOB
  | NAND_ECC_PLACEMENT_INTERLEAVED
deriving DecidableEq

inductive NandEccAlgo
  | NAND_ECC_ALGO_UNKNOWN
  | NAND_ECC_ALGO_HAMMING
  | NAND_ECC_ALGO_BCH
deriving DecidableEq

/-- Tags for the `chip->ecc.calculate` callback. -/
inductive EccCalculateFn
  | nand_davinci_calculate_1bit
  | nand_davinci_calculate_4bit
deriving DecidableEq

/-- Tags for the `chip->ecc.correct` callback. -/
inductive EccCorrectFn
  | nand_davinci_correct_1bit
  | nand_davinci_correct_4bit
deriving DecidableEq

/-- Tags for the `chip->ecc.hwctl` callback. -/
inductive EccHwctlFn
  | nand_davinci_hwctl_1bit
  | nand_davinci_hwctl_4bit
deriving DecidableEq

/-- Tags for the `chip->ecc.read_page` callback. -/
inductive EccReadPageFn
  | nand_read_page_hwecc_oob_first
deriving DecidableEq

/-- Tags for the OOB layout operations installed with `mtd_set_ooblayout`. -/
inductive OobLayoutOps
  | hwecc4_small_ooblayout_ops
  | hwecc4_large_ooblayout_ops
  | nand_large_page_ooblayout
deriving DecidableEq

def NAND_ECC_GENERIC_ERASED_CHECK : Nat := 1       -- BIT(0)
def NAND_BUSWIDTH_16 : Nat := 2                    -- BIT(1)
def NAND_NO_SUBPAGE_WRITE : Nat := 256             -- BIT(8)
def NAND_IS_BOOT_MEDIUM : Nat := 2097152           -- BIT(21)
def NAND_BBT_USE_FLASH : Nat := 131072             -- 0x00020000

/-- The `chip->ecc` control structure fields that the driver touches. -/
structure NandEccCtrl where
  engine_type : NandEccEngineType
  placement : NandEccPlacement
  algo : NandEccAlgo
  size : Nat
  bytes : Nat
  strength : Nat
  options : Nat
  calculate : Option EccCalculateFn
  correct : Option EccCorrectFn
  hwctl : Option EccHwctlFn
  read_page : Option EccReadPageFn
deriving DecidableEq

/-- The chip state that `davinci_nand_attach_chip` reads and writes:
`chip->options`, `chip->ecc` and the mtd OOB layout. -/
structure NandChipState where
  options : Nat
  ecc : NandEccCtrl
  ooblayout : Option OobLayoutOps
deriving DecidableEq

structure MtdInfo where
  writesize : Nat
  oobsize : Nat
deriving DecidableEq

/-- The fields of `struct davinci_nand_pdata` used by the attach logic. -/
structure DavinciNandPdata where
  mask_ale : Nat
  mask_cle : Nat
  core_chipsel : Nat
  mask_chipsel : Nat
  engine_type : NandEccEngineType
  ecc_placement : NandEccPlacement
  ecc_bits : Nat
  options : Nat
  bbt_options : Nat
deriving DecidableEq

/-- Result of `davinci_nand_attach_chip`: return code, updated chip state,
updated platform data (the NONE/ON_DIE/SOFT cases zero `pdata->ecc_bits`)
and the updated global `ecc4_busy` flag. -/
structure AttachResult where
  ret : Int
  chip : NandChipState
  pdata : DavinciNandPdata
  ecc4_busy : Bool
deriving DecidableEq

/-- Shallow embedding of `davinci_nand_attach_chip`, starting from the
point where the platform data has been obtained (the claims' source range
is the `switch` on the engine type). -/
def davinci_nand_attach_chip (mtd : MtdInfo) (pdata : DavinciNandPdata)
    (chip0 : NandChipState) (busy : Bool) : AttachResult :=
  let chip := { chip0 with ecc := { chip0.ecc with
      engine_type := pdata.engine_type,
      placement := pdata.ecc_placement } }
  match pdata.engine_type with
  | .NAND_ECC_ENGINE_TYPE_NONE =>
      { ret := 0, chip := chip, pdata := { pdata with ecc_bits := 0 }, ecc4_busy := busy }
  | .NAND_ECC_ENGINE_TYPE_ON_DIE =>
      { ret := 0, chip := chip, pdata := { pdata with ecc_bits := 0 }, ecc4_busy := busy }
  | .NAND_ECC_ENGINE_TYPE_SOFT =>
      { ret := 0,
        chip := { chip with ecc := { chip.ecc with algo := .NAND_ECC_ALGO_HAMMING } },
        pdata := { pdata with ecc_bits := 0 }, ecc4_busy := busy }
  | .NAND_ECC_ENGINE_TYPE_ON_HOST =>
      if pdata.ecc_bits = 4 then
        let chunks := mtd.writesize / 512
        if chunks = 0 ∨ mtd.oobsize < 16 then
          { ret := -EINVAL, chip := chip, pdata := pdata, ecc4_busy := busy }
        else if busy then
          { ret := -EBUSY, chip := chip, pdata := pdata, ecc4_busy := busy }
        else
          let chip := { chip with ecc := { chip.ecc with
              calculate := some .nand_davinci_calculate_4bit,
              correct := some .nand_davinci_correct_4bit,
              hwctl := some .nand_davinci_hwctl_4bit,
              bytes := 10,
              options := NAND_ECC_GENERIC_ERASED_CHECK,
              algo := .NAND_ECC_ALGO_BCH } }
          if chunks = 1 then
            let chip := { chip with ooblayout := some .hwecc4_small_ooblayout_ops }
            { ret := 0,
              chip := { chip with ecc := { chip.ecc with
                  size := 512, strength := pdata.ecc_bits } },
              pdata := pdata, ecc4_busy := true }
          else if chunks = 4 ∨ chunks = 8 then
            let chip := { chip with ecc := { chip.ecc with
                read_page := some .nand_read_page_hwecc_oob_first } }
            let chip :=
              if chip.options &&& NAND_IS_BOOT_MEDIUM ≠ 0 then
                { chip with ooblayout := some .hwecc4_large_ooblayout_ops }
              else
                { chip with ooblayout := some .nand_large_page_ooblayout }
            { ret := 0,
              chip := { chip with ecc := { chip.ecc with
                  size := 512, strength := pdata.ecc_bits } },
              pdata := pdata, ecc4_busy := true }
          else
            { ret := -EIO_ERR, chip := chip, pdata := pdata, ecc4_busy := true }
      else
        let chip := { chip with ecc := { chip.ecc with
            calculate := some .nand_davinci_calculate_1bit,
            correct := some .nand_davinci_correct_1bit,
            hwctl := some .nand_davinci_hwctl_1bit,
            bytes := 3,
            algo := .NAND_ECC_ALGO_HAMMING,
            size := 512,
            strength := pdata.ecc_bits } }
        { ret := 0, chip := chip, pdata := pdata, ecc4_busy := busy }
  | .NAND_ECC_ENGINE_TYPE_INVALID =>
      { ret := -EINVAL, chip := chip, pdata := pdata, ecc4_busy := busy }

/-- Shallow embedding of the `ecc4_busy` handling in `nand_davinci_remove`:
the flag is cleared only when the removed chip's ECC placement is
`NAND_ECC_PLACEMENT_INTERLEAVED`. -/
def nand_davinci_remove (chip : NandChipState) (busy : Bool) : Bool :=
  if chip.ecc.placement = .NAND_ECC_PLACEMENT_INTERLEAVED then false else busy

/-- Claim C3: with engine type ON_HOST, a successful
`davinci_nand_attach_chip` sets `ecc.size = 512` and
`ecc.strength = pdata->ecc_bits`, and installs the 4-bit callbacks
(`calculate`/`correct`/`hwctl`, 10 ECC bytes, BCH algorithm and the
`NAND_ECC_GENERIC_ERASED_CHECK` option) when `ecc_bits = 4`, or the 1-bit
Hamming callbacks (3 ECC bytes, Hamming algorithm) for any other
`ecc_bits`; for engine types NONE, ON_DIE and SOFT it zeroes
`pdata->ecc_bits`, and the SOFT case forces the Hamming algorithm. -/
theorem davinci_nand_attach_chip_config (mtd : MtdInfo) (pdata : DavinciNandPdata)
    (chip0 : NandChipState) (busy : Bool) :
    (pdata.engine_type = .NAND_ECC_ENGINE_TYPE_ON_HOST →
      (davinci_nand_attach_chip mtd pdata chip0 busy).ret = 0 →
      (davinci_nand_attach_chip mtd pdata chip0 busy).chip.ecc.size = 512 ∧
      (davinci_nand_attach_chip mtd pdata chip0 busy).chip.ecc.strength = pdata.ecc_bits ∧
      (pdata.ecc_bits = 4 →
        (davinci_nand_attach_chip mtd pdata chip0 busy).chip.ecc.calculate =
          some .nand_davinci_calculate_4bit ∧
        (davinci_nand_attach_chip mtd pdata chip0 busy).chip.ecc.correct =
          some .nand_davinci_correct_4bit ∧
        (davinci_nand_attach_chip mtd pdata chip0 busy).chip.ecc.hwctl =
          some .nand_davinci_hwctl_4bit ∧
        (davinci_nand_attach_chip mtd pdata chip0 busy).chip.ecc.bytes = 10 ∧
        (davinci_nand_attach_chip mtd pdata chip0 busy).chip.ecc.algo =
          .NAND_ECC_ALGO_BCH ∧
        (davinci_nand_attach_chip mtd pdata chip0 busy).chip.ecc.options =
          NAND_ECC_GENERIC_ERASED_CHECK) ∧
      (pdata.ecc_bits ≠ 4 →
        (davinci_nand_attach_chip mtd pdata chip0 busy).chip.ecc.calculate =
          some .nand_davinci_calculate_1bit ∧
        (davinci_nand_attach_chip mtd pdata chip0 busy).chip.ecc.correct =
          some .nand_davinci_correct_1bit ∧
        (davinci_nand_attach_chip mtd pdata chip0 busy).chip.ecc.hwctl =
          some .nand_davinci_hwctl_1bit ∧
        (davinci_nand_attach_chip mtd pdata chip0 busy).chip.ecc.bytes = 3 ∧
        (davinci_nand_attach_chip mtd pdata chip0 busy).chip.ecc.algo =
          .NAND_ECC_ALGO_HAMMING)) ∧
    ((pdata.engine_type = .NAND_ECC_ENGINE_TYPE_NONE ∨
      pdata.engine_type = .NAND_ECC_ENGINE_TYPE_ON_DIE ∨
      pdata.engine_type = .NAND_ECC_ENGINE_TYPE_SOFT) →
      (davinci_nand_attach_chip mtd pdata chip0 busy).pdata.ecc_bits = 0) ∧
    (pdata.engine_type = .NAND_ECC_ENGINE_TYPE_SOFT →
      (davinci_nand_attach_chip mtd pdata chip0 busy).chip.ecc.algo =
        .NAND_ECC_ALGO_HAMMING) := by
  refine ⟨?_, ?_, ?_⟩
  · intro hengine hret
    by_cases hbits : pdata.ecc_bits = 4
    · by_cases hsmall : mtd.writesize / 512 = 0 ∨ mtd.oobsize < 16
      · exfalso
        simp [davinci_nand_attach_chip, hengine, hbits, hsmall, EINVAL] at hret
      · have hno : ¬ mtd.oobsize < 16 := fun hcon => hsmall (Or.inr hcon)
        have hnz : ¬ mtd.writesize / 512 = 0 := fun hcon => hsmall (Or.inl hcon)
        cases busy with
        | true =>
          exfalso
          simp [davinci_nand_attach_chip, hengine, hbits, hsmall, hno, hnz, EBUSY] at hret
        | false =>
          by_cases h1 : mtd.writesize / 512 = 1
          · simp [davinci_nand_attach_chip, hengine, hbits, hsmall, hno, hnz, h1]
          · by_cases h48 : mtd.writesize / 512 = 4 ∨ mtd.writesize / 512 = 8
            · by_cases hboot : chip0.options &&& NAND_IS_BOOT_MEDIUM ≠ 0
              · simp [davinci_nand_attach_chip, hengine, hbits, hsmall, hno, hnz, h1, h48,
                  hboot]
              · simp [davinci_nand_attach_chip, hengine, hbits, hsmall, hno, hnz, h1, h48,
                  hboot]
            · exfalso
              simp [davinci_nand_attach_chip, hengine, hbits, hsmall, hno, hnz, h1, h48,
                EIO_ERR] at hret
    · simp [davinci_nand_attach_chip, hengine, hbits]
  · intro hengine
    rcases hengine with h | h | h <;> simp [davinci_nand_attach_chip, h]
  · intro hengine
    simp [davinci_nand_attach_chip, hengine]

/-- A pristine chip state: no ECC callbacks, no OOB layout installed. -/
def w_chip : NandChipState :=
  { options := 0,
    ecc := { engine_type := .NAND_ECC_ENGINE_TYPE_INVALID,
             placement := .NAND_ECC_PLACEMENT_UNKNOWN,
             algo := .NAND_ECC_ALGO_UNKNOWN,
             size := 0, bytes := 0, strength := 0, options := 0,
             calculate := Option.none, correct := Option.none,
             hwctl := Option.none, read_page := Option.none },
    ooblayout := Option.none }

def w_mtd : MtdInfo := { writesize := 512, oobsize := 16 }

/-- Board configuration requesting on-host 4-bit ECC. -/
def w4_pdata : DavinciNandPdata :=
  { mask_ale := 0, mask_cle := 0, core_chipsel := 0, mask_chipsel := 0,
    engine_type := .NAND_ECC_ENGINE_TYPE_ON_HOST,
    ecc_placement := .NAND_ECC_PLACEMENT_UNKNOWN,
    ecc_bits := 4, options := 0, bbt_options := 0 }

/-- Witness for claim C3: a successful 4-bit ON_HOST attach on a
small-page chip installs the 4-bit configuration. -/
theorem davinci_nand_attach_chip_config_witness :
    w4_pdata.engine_type = .NAND_ECC_ENGINE_TYPE_ON_HOST ∧
    (davinci_nand_attach_chip w_mtd w4_pdata w_chip false).ret = 0 ∧
    ((davinci_nand_attach_chip w_mtd w4_pdata w_chip false).chip.ecc.size = 512 ∧
     (davinci_nand_attach_chip w_mtd w4_pdata w_chip false).chip.ecc.strength =
       w4_pdata.ecc_bits ∧
     (davinci_nand_attach_chip w_mtd w4_pdata w_chip false).chip.ecc.calculate =
       some .nand_davinci_calculate_4bit ∧
     (davinci_nand_attach_chip w_mtd w4_pdata w_chip false).chip.ecc.bytes = 10) := by
  have h := davinci_nand_attach_chip_config w_mtd w4_pdata w_chip false
  have h1 := h.1 (by decide) (by decide)
  have h2 := h1.2.2.1 (by decide)
  exact ⟨by decide, by decide, h1.1, h1.2.1, h2.1, h2.2.2.2.1⟩

def c4_mtd : MtdInfo := { writesize := 1024, oobsize := 64 }

/-- Counterexample to claim C4 as stated: with ON_HOST 4-bit ECC and a
1024-byte page (2 chunks of 512, not 1, 4 or 8), the attach fails with
-EIO, but the failure does not leave the chip's ECC callbacks
uninstalled: the 4-bit callbacks were already installed (and the shared
4-bit engine flag acquired) before the chunk-count check. -/
theorem davinci_nand_attach_chip_errors_counterexample :
    (davinci_nand_attach_chip c4_mtd w4_pdata w_chip false).ret = -EIO_ERR ∧
    w_chip.ecc.calculate = Option.none ∧
    (davinci_nand_attach_chip c4_mtd w4_pdata w_chip false).chip.ecc.calculate =
      some .nand_davinci_calculate_4bit ∧
    (davinci_nand_attach_chip c4_mtd w4_pdata w_chip false).chip.ecc.correct =
      some .nand_davinci_correct_4bit ∧
    (davinci_nand_attach_chip c4_mtd w4_pdata w_chip false).ecc4_busy = true := by
  decide

/-- Claim C4 (amended): `davinci_nand_attach_chip` returns -EINVAL exactly
for an engine type outside {NONE, ON_DIE, SOFT, ON_HOST} or for ON_HOST
4-bit ECC with `writesize / 512 = 0` or `oobsize < 16`; -EBUSY exactly
when the shared 4-bit hardware is already held; -EIO exactly when the
chunk count is not 1, 4 or 8; and 0 otherwise.  On the -EINVAL and -EBUSY
failures the ECC callbacks and OOB layout are left uninstalled, but on the
-EIO failure the 4-bit ECC callbacks have already been installed (and the
busy flag acquired); only the OOB layout is left uninstalled. -/
theorem davinci_nand_attach_chip_errors (mtd : MtdInfo) (pdata : DavinciNandPdata)
    (chip0 : NandChipState) (busy : Bool) :
    ((davinci_nand_attach_chip mtd pdata chip0 busy).ret = -EINVAL ↔
      ((pdata.engine_type ≠ .NAND_ECC_ENGINE_TYPE_NONE ∧
        pdata.engine_type ≠ .NAND_ECC_ENGINE_TYPE_ON_DIE ∧
        pdata.engine_type ≠ .NAND_ECC_ENGINE_TYPE_SOFT ∧
        pdata.engine_type ≠ .NAND_ECC_ENGINE_TYPE_ON_HOST) ∨
       (pdata.engine_type = .NAND_ECC_ENGINE_TYPE_ON_HOST ∧ pdata.ecc_bits = 4 ∧
        (mtd.writesize / 512 = 0 ∨ mtd.oobsize < 16)))) ∧
    ((davinci_nand_attach_chip mtd pdata chip0 busy).ret = -EBUSY ↔
      (pdata.engine_type = .NAND_ECC_ENGINE_TYPE_ON_HOST ∧ pdata.ecc_bits = 4 ∧
       ¬ (mtd.writesize / 512 = 0 ∨ mtd.oobsize < 16) ∧ busy = true)) ∧
    ((davinci_nand_attach_chip mtd pdata chip0 busy).ret = -EIO_ERR ↔
      (pdata.engine_type = .NAND_ECC_ENGINE_TYPE_ON_HOST ∧ pdata.ecc_bits = 4 ∧
       ¬ (mtd.writesize / 512 = 0 ∨ mtd.oobsize < 16) ∧ busy = false ∧
       ¬ (mtd.writesize / 512 = 1 ∨ mtd.writesize / 512 = 4 ∨
          mtd.writesize / 512 = 8))) ∧
    ((davinci_nand_attach_chip mtd pdata chip0 busy).ret = 0 ∨
     (davinci_nand_attach_chip mtd pdata chip0 busy).ret = -EINVAL ∨
     (davinci_nand_attach_chip mtd pdata chip0 busy).ret = -EBUSY ∨
     (davinci_nand_attach_chip mtd pdata chip0 busy).ret = -EIO_ERR) ∧
    (((davinci_nand_attach_chip mtd pdata chip0 busy).ret = -EINVAL ∨
      (davinci_nand_attach_chip mtd pdata chip0 busy).ret = -EBUSY) →
      (davinci_nand_attach_chip mtd pdata chip0 busy).chip.ecc.calculate =
        chip0.ecc.calculate ∧
      (davinci_nand_attach_chip mtd pdata chip0 busy).chip.ecc.correct =
        chip0.ecc.correct ∧
      (davinci_nand_attach_chip mtd pdata chip0 busy).chip.ecc.hwctl =
        chip0.ecc.hwctl ∧
      (davinci_nand_attach_chip mtd pdata chip0 busy).chip.ooblayout =
        chip0.ooblayout) ∧
    ((davinci_nand_attach_chip mtd pdata chip0 busy).ret = -EIO_ERR →
      (davinci_nand_attach_chip mtd pdata chip0 busy).chip.ecc.calculate =
        some .nand_davinci_calculate_4bit ∧
      (davinci_nand_attach_chip mtd pdata chip0 busy).chip.ecc.correct =
        some .nand_davinci_correct_4bit ∧
      (davinci_nand_attach_chip mtd pdata chip0 busy).chip.ecc.hwctl =
        some .nand_davinci_hwctl_4bit ∧
      (davinci_nand_attach_chip mtd pdata chip0 busy).chip.ooblayout =
        chip0.ooblayout ∧
      (davinci_nand_attach_chip mtd pdata chip0 busy).ecc4_busy = true) := by
  cases hengine : pdata.engine_type with
  | NAND_ECC_ENGINE_TYPE_INVALID =>
    simp [davinci_nand_attach_chip, hengine, EINVAL, EBUSY, EIO_ERR]
  | NAND_ECC_ENGINE_TYPE_NONE =>
    simp [davinci_nand_attach_chip, hengine, EINVAL, EBUSY, EIO_ERR]
  | NAND_ECC_ENGINE_TYPE_ON_DIE =>
    simp [davinci_nand_attach_chip, hengine, EINVAL, EBUSY, EIO_ERR]
  | NAND_ECC_ENGINE_TYPE_SOFT =>
    simp [davinci_nand_attach_chip, hengine, EINVAL, EBUSY, EIO_ERR]
  | NAND_ECC_ENGINE_TYPE_ON_HOST =>
    by_cases hbits : pdata.ecc_bits = 4
    · by_cases hsmall : mtd.writesize / 512 = 0 ∨ mtd.oobsize < 16
      · rcases hsmall with hs | hs <;>
          simp [davinci_nand_attach_chip, hengine, hbits, hs, EINVAL, EBUSY, EIO_ERR]
      · have hno : ¬ mtd.oobsize < 16 := fun hcon => hsmall (Or.inr hcon)
        have hnz : ¬ mtd.writesize / 512 = 0 := fun hcon => hsmall (Or.inl hcon)
        cases busy with
        | true =>
          simp [davinci_nand_attach_chip, hengine, hbits, hno, hnz, EINVAL, EBUSY, EIO_ERR]
        | false =>
          by_cases h1 : mtd.writesize / 512 = 1
          · simp [davinci_nand_attach_chip, hengine, hbits, hno, hnz, h1,
              EINVAL, EBUSY, EIO_ERR]
          · by_cases h48 : mtd.writesize / 512 = 4 ∨ mtd.writesize / 512 = 8
            · by_cases hboot : chip0.options &&& NAND_IS_BOOT_MEDIUM ≠ 0
              · simp [davinci_nand_attach_chip, hengine, hbits, hno, hnz, h1, h48, hboot,
                  EINVAL, EBUSY, EIO_ERR]
              · simp [davinci_nand_attach_chip, hengine, hbits, hno, hnz, h1, h48, hboot,
                  EINVAL, EBUSY, EIO_ERR]
            · have h4 : ¬ mtd.writesize / 512 = 4 := fun hcon => h48 (Or.inl hcon)
              have h8 : ¬ mtd.writesize / 512 = 8 := fun hcon => h48 (Or.inr hcon)
              simp [davinci_nand_attach_chip, hengine, hbits, hno, hnz, h1, h4, h8,
                EINVAL, EBUSY, EIO_ERR]
    · simp [davinci_nand_attach_chip, hengine, hbits, EINVAL, EBUSY, EIO_ERR]

/-- Witness for claim C4: when another chip already holds the 4-bit
hardware, the attach fails with -EBUSY and installs nothing. -/
theorem davinci_nand_attach_chip_errors_witness :
    (davinci_nand_attach_chip w_mtd w4_pdata w_chip true).ret = -EBUSY ∧
    (davinci_nand_attach_chip w_mtd w4_pdata w_chip true).chip.ecc.calculate =
      w_chip.ecc.calculate ∧
    (davinci_nand_attach_chip w_mtd w4_pdata w_chip true).chip.ooblayout =
      w_chip.ooblayout := by
  have h := davinci_nand_attach_chip_errors w_mtd w4_pdata w_chip true
  have hbusy : (davinci_nand_attach_chip w_mtd w4_pdata w_chip true).ret = -EBUSY :=
    h.2.1.mpr (by decide)
  have h5 := h.2.2.2.2.1 (Or.inr hbusy)
  exact ⟨hbusy, h5.1, h5.2.2.2⟩

/-- Claim C7 (code bug): a chip attaches with on-host 4-bit ECC and
acquires `ecc4_busy`; removing it does NOT clear `ecc4_busy`, because
`nand_davinci_remove` only clears the flag when `chip->ecc.placement` is
`NAND_ECC_PLACEMENT_INTERLEAVED`, a placement this driver never
configures (its own comment says interleaved placement is avoided).  A
subsequent 4-bit attach therefore fails with -EBUSY, contradicting the
claimed acquire/release invariant. -/
theorem ecc4_busy_leak_on_remove :
    (davinci_nand_attach_chip w_mtd w4_pdata w_chip false).ret = 0 ∧
    (davinci_nand_attach_chip w_mtd w4_pdata w_chip false).ecc4_busy = true ∧
    (davinci_nand_attach_chip w_mtd w4_pdata w_chip false).chip.ecc.placement ≠
      .NAND_ECC_PLACEMENT_INTERLEAVED ∧
    nand_davinci_remove (davinci_nand_attach_chip w_mtd w4_pdata w_chip false).chip
      (davinci_nand_attach_chip w_mtd w4_pdata w_chip false).ecc4_busy = true ∧
    (davinci_nand_attach_chip w_mtd w4_pdata w_chip
      (nand_davinci_remove
        (davinci_nand_attach_chip w_mtd w4_pdata w_chip false).chip
        (davinci_nand_attach_chip w_mtd w4_pdata w_chip false).ecc4_busy)).ret =
      -EBUSY := by
  decide

/-! ## 4-bit ECC correction and device state (claim C5)

`nand_davinci_correct_4bit` polls memory-mapped registers.  The device is
modelled by a read-trace oracle `s : Nat → Nat` giving the value returned
by the n-th MMIO register read that the function performs; register
writes transform hidden device state and are absorbed by the oracle.
The unbounded `for (;;)` polling loop gets a fuel parameter and the
timeout-bounded do/while loop a poll budget; `Option.none` marks
divergence (or the out-of-bounds buffer write that is undefined
behaviour in the C).  The pointer-alignment `WARN_ON` check on
`ecc_code` is a memory-layout property and is not modelled. -/

/-- The do/while loop waiting for `ECC_STATE >= 4`: the body always runs
once; `budget` bounds further iterations (the C loop is bounded by a
100 microsecond timeout).  Returns the next read index. -/
def davinci_wait_ecc_state (s : Nat → Nat) : Nat → Nat → Nat
  | n, 0 => n + 1
  | n, budget + 1 =>
    if (s n >>> 8) &&& 0x0f < 4 then davinci_wait_ecc_state s (n + 1) budget
    else n + 1

/-- The `for (;;)` loop reading NANDFSR until the ECC state field is one
of 0-3.  Returns the next read index and the decisive register value. -/
def davinci_poll_ecc_state (s : Nat → Nat) : Nat → Nat → Option (Nat × Nat)
  | _, 0 => Option.none
  | n, fuel + 1 =>
    if (s n >>> 8) &&& 0x0f < 4 then some (n + 1, s n)
    else davinci_poll_ecc_state s (n + 1) fuel

/-- The error-correction loop: for each of `remaining` errors, read an
address and a value register (the C reads ERR_ADD1/ERRVAL1 for the first
two errors and ERR_ADD2/ERRVAL2 after that; in the read-trace model both
are the next two oracle reads), take the upper 16-bit halves for odd
`i`, and flip the addressed byte when the address is in range.  A
negative address would index outside the buffer in C. -/
def davinci_correct_errors (s : Nat → Nat) :
    Nat → Nat → Nat → Nat → List Nat → Option (Nat × List Nat)
  | 0, _i, _n, corrected, data => some (corrected, data)
  | remaining + 1, i, n, corrected, data =>
    let ea0 := s n
    let ev0 := s (n + 1)
    let ea1 := if i % 2 = 1 then ea0 >>> 16 else ea0
    let ev1 := if i % 2 = 1 then ev0 >>> 16 else ev0
    let ea2 := ea1 &&& 0x3ff
    let error_address : Int := (512 + 7) - (ea2 : Int)
    if error_address < 512 then
      if error_address < 0 then Option.none
      else
        let a := error_address.toNat
        davinci_correct_errors s remaining (i + 1) (n + 2) (corrected + 1)
          (data.set a ((data.getD a 0 ^^^ ev1) % 256))
    else
      davinci_correct_errors s remaining (i + 1) (n + 2) corrected data

/-- Shallow embedding of `nand_davinci_correct_4bit` over the read-trace
oracle.  Read 0 is the NANDFSR settling read, reads 1-4 the syndrome
registers, read 5 the ERR_ADD1 clearing read, read 6 the NANDFCR
read-modify-write; polling starts at read 7. -/
def nand_davinci_correct_4bit (s : Nat → Nat) (poll_budget fuel : Nat)
    (data : List Nat) (ecc_code : List Nat) : Option (Int × List Nat) :=
  match ecc_code with
  | [c0, c1, c2, c3, c4, c5, c6, c7, c8, c9] =>
    let _ecc10 := nand_davinci_unpack_ecc10 [c0, c1, c2, c3, c4, c5, c6, c7, c8, c9]
    let syndrome0 := s 1 &&& 0x03ff03ff
    let syndrome1 := s 2 &&& 0x03ff03ff
    let syndrome2 := s 3 &&& 0x03ff03ff
    let syndrome3 := s 4 &&& 0x03ff03ff
    if syndrome0 ||| syndrome1 ||| syndrome2 ||| syndrome3 = 0 then
      some (0, data)
    else
      let n0 := davinci_wait_ecc_state s 7 poll_budget
      match davinci_poll_ecc_state s n0 fuel with
      | Option.none => Option.none
      | some (n1, fsr) =>
        match (fsr >>> 8) &&& 0x0f with
        | 0 => some (0, data)
        | 1 => some (-EBADMSG, data)
        | _ =>
          let num_errors := 1 + ((fsr >>> 16) &&& 0x03)
          match davinci_correct_errors s num_errors 0 n1 0 data with
          | Option.none => Option.none
          | some (corrected, data1) => some ((corrected : Int), data1)
  | _ => Option.none

/-- `nand_davinci_correct_1bit` with a device-state argument: the C
function performs no MMIO register access at all, so its embedding
ignores the read-trace oracle. -/
def nand_davinci_correct_1bit_dev (_s : Nat → Nat) (ecc_size : Nat)
    (dat : List Nat) (r0 r1 r2 c0 c1 c2 : Nat) : Int × List Nat :=
  nand_davinci_correct_1bit ecc_size dat r0 r1 r2 c0 c1 c2

def c5_data : List Nat := List.replicate 512 0

def c5_ecc : List Nat := [0, 0, 0, 0, 0, 0, 0, 0, 0, 0]

/-- Device state A: every register read returns 0, so the syndrome is
clean. -/
def c5_s1 : Nat → Nat := fun _ => 0

/-- Device state B: a nonzero syndrome, `ECC_STATE = 4` on the first
do/while read, then `ECC_STATE = 1` (five or more errors). -/
def c5_s2 : Nat → Nat := fun n =>
  if n = 1 then 1 else if n = 7 then 0x400 else if n = 8 then 0x100 else 0

/-- Claim C5 (amended): `nand_davinci_correct_4bit` genuinely depends on
device register state: two device states yield different outcomes for the
same in-memory arguments.  `nand_davinci_correct_1bit`, however, performs
no register access and is a deterministic function of its arguments
alone. -/
theorem ecc_correct_device_dependence :
    (nand_davinci_correct_4bit c5_s1 1 1 c5_data c5_ecc = some (0, c5_data) ∧
     nand_davinci_correct_4bit c5_s2 1 1 c5_data c5_ecc = some (-EBADMSG, c5_data) ∧
     nand_davinci_correct_4bit c5_s1 1 1 c5_data c5_ecc ≠
       nand_davinci_correct_4bit c5_s2 1 1 c5_data c5_ecc) ∧
    (∀ (s1 s2 : Nat → Nat) (ecc_size : Nat) (dat : List Nat) (r0 r1 r2 c0 c1 c2 : Nat),
      nand_davinci_correct_1bit_dev s1 ecc_size dat r0 r1 r2 c0 c1 c2 =
        nand_davinci_correct_1bit_dev s2 ecc_size dat r0 r1 r2 c0 c1 c2) := by
  refine ⟨⟨rfl, rfl, ?_⟩, ?_⟩
  · intro hcon
    rw [show nand_davinci_correct_4bit c5_s1 1 1 c5_data c5_ecc =
          some (0, c5_data) from rfl,
        show nand_davinci_correct_4bit c5_s2 1 1 c5_data c5_ecc =
          some (-EBADMSG, c5_data) from rfl] at hcon
    simp [EBADMSG] at hcon
  · intro s1 s2 ecc_size dat r0 r1 r2 c0 c1 c2
    rfl

/-- Counterexample to claim C5 as stated: the claim asserts that BOTH
correct operations depend on device register state, but
`nand_davinci_correct_1bit` reads no registers: no pair of device states
produces different outcomes for any in-memory arguments. -/
theorem ecc_correct_device_dependence_counterexample :
    ¬ ∃ (s1 s2 : Nat → Nat) (dat : List Nat) (r0 r1 r2 c0 c1 c2 : Nat),
        nand_davinci_correct_1bit_dev s1 512 dat r0 r1 r2 c0 c1 c2 ≠
          nand_davinci_correct_1bit_dev s2 512 dat r0 r1 r2 c0 c1 c2 := by
  rintro ⟨s1, s2, dat, r0, r1, r2, c0, c1, c2, h⟩
  exact h rfl

/-! ## Device-property parsing (`nand_davinci_get_pdata`, claim C6) -/

/-- The device properties read by `nand_davinci_get_pdata`, plus the
pre-existing board platform data and the outcome of `devm_kzalloc`. -/
structure DavinciDeviceProps where
  platform_data : Option DavinciNandPdata
  alloc_ok : Bool
  chipselect : Option Nat
  mask_ale_prop : Option Nat
  mask_cle_prop : Option Nat
  mask_chipsel_prop : Option Nat
  ecc_mode : Option (List Char)
  ecc_bits_prop : Option Nat
  buswidth : Option Nat
  use_bbt : Bool
  keystone : Bool

/-- `strncmp(a, b, n) == 0` for NUL-free strings. -/
def strncmp_eq (a b : List Char) (n : Nat) : Bool := a.take n == b.take n

theorem strncmp_eq_iff (a b : List Char) (n : Nat) :
    strncmp_eq a b n = true ↔ a.take n = b.take n := by
  unfold strncmp_eq
  exact beq_iff_eq

/-- The zero-filled pdata produced by `devm_kzalloc` (the first enum
values are the C zero values). -/
def kzalloc_pdata : DavinciNandPdata :=
  { mask_ale := 0, mask_cle := 0, core_chipsel := 0, mask_chipsel := 0,
    engine_type := .NAND_ECC_ENGINE_TYPE_INVALID,
    ecc_placement := .NAND_ECC_PLACEMENT_UNKNOWN,
    ecc_bits := 0, options := 0, bbt_options := 0 }

/-- The "ti,davinci-ecc-mode" prefix tests of `nand_davinci_get_pdata`,
in source order (the four `strncmp` ifs each assign
`pdata->engine_type`; they are not mutually exclusive in the source, but
their prefixes are). -/
def davinci_ecc_mode_engine (engine_type : NandEccEngineType) (mode : List Char) :
    NandEccEngineType :=
  let engine_type := if strncmp_eq ("none".toList) mode 4 then
      .NAND_ECC_ENGINE_TYPE_NONE else engine_type
  let engine_type := if strncmp_eq ("soft".toList) mode 4 then
      .NAND_ECC_ENGINE_TYPE_SOFT else engine_type
  let engine_type := if strncmp_eq ("hw".toList) mode 2 then
      .NAND_ECC_ENGINE_TYPE_ON_HOST else engine_type
  let engine_type := if strncmp_eq ("on-die".toList) mode 6 then
      .NAND_ECC_ENGINE_TYPE_ON_DIE else engine_type
  engine_type

/-- Shallow embedding of `nand_davinci_get_pdata` (the CONFIG_OF variant)
for a device without board platform data; with board platform data it is
returned unchanged. -/
def nand_davinci_get_pdata (dev : DavinciDeviceProps) :
    Except Int DavinciNandPdata :=
  match dev.platform_data with
  | some pd => Except.ok pd
  | Option.none =>
    if dev.alloc_ok = false then Except.error (-ENOMEM)
    else
      match dev.chipselect with
      | Option.none => Except.error (-EINVAL)
      | some cs =>
        let pdata := { kzalloc_pdata with core_chipsel := cs }
        let pdata := match dev.mask_ale_prop with
          | some v => { pdata with mask_ale := v }
          | Option.none => pdata
        let pdata := match dev.mask_cle_prop with
          | some v => { pdata with mask_cle := v }
          | Option.none => pdata
        let pdata := match dev.mask_chipsel_prop with
          | some v => { pdata with mask_chipsel := v }
          | Option.none => pdata
        let pdata := match dev.ecc_mode with
          | some mode =>
            { pdata with engine_type := davinci_ecc_mode_engine pdata.engine_type mode }
          | Option.none => pdata
        let pdata := match dev.ecc_bits_prop with
          | some v => { pdata with ecc_bits := v }
          | Option.none => pdata
        let pdata := match dev.buswidth with
          | some v => if v = 16 then
              { pdata with options := pdata.options ||| NAND_BUSWIDTH_16 }
            else pdata
          | Option.none => pdata
        let pdata := if dev.use_bbt then
            { pdata with bbt_options := NAND_BBT_USE_FLASH }
          else pdata
        let pdata := if dev.keystone then
            { pdata with options := pdata.options ||| NAND_NO_SUBPAGE_WRITE }
          else pdata
        Except.ok pdata

/-- A successful prefix comparison pins down the first character of the
mode string. -/
theorem strncmp_eq_head {pat mode : List Char} {n : Nat} {c : Char}
    {rest : List Char} (hpat : pat.take n = c :: rest)
    (h : strncmp_eq pat mode n = true) : ∃ tail, mode = c :: tail := by
  have heq : pat.take n = mode.take n := (strncmp_eq_iff pat mode n).mp h
  rw [hpat] at heq
  cases n with
  | zero => simp [List.take] at hpat
  | succ m =>
    cases mode with
    | nil => simp [List.take] at heq
    | cons a t =>
      simp only [List.take_succ_cons, List.cons.injEq] at heq
      exact ⟨t, by rw [heq.1]⟩

/-- The mode string selects the engine type by prefix; the four prefixes
are mutually exclusive because their first characters differ. -/
theorem davinci_ecc_mode_engine_spec (et : NandEccEngineType) (mode : List Char) :
    (strncmp_eq ("none".toList) mode 4 = true →
      davinci_ecc_mode_engine et mode = .NAND_ECC_ENGINE_TYPE_NONE) ∧
    (strncmp_eq ("soft".toList) mode 4 = true →
      davinci_ecc_mode_engine et mode = .NAND_ECC_ENGINE_TYPE_SOFT) ∧
    (strncmp_eq ("hw".toList) mode 2 = true →
      davinci_ecc_mode_engine et mode = .NAND_ECC_ENGINE_TYPE_ON_HOST) ∧
    (strncmp_eq ("on-die".toList) mode 6 = true →
      davinci_ecc_mode_engine et mode = .NAND_ECC_ENGINE_TYPE_ON_DIE) := by
  refine ⟨?_, ?_, ?_, ?_⟩
  · intro h
    obtain ⟨tail, htail⟩ :=
      strncmp_eq_head (show ("none".toList).take 4 = 'n' :: ['o', 'n', 'e'] from rfl) h
    subst htail
    have hs : strncmp_eq ("soft".toList) ('n' :: tail) 4 = false := by
      cases hb : strncmp_eq ("soft".toList) ('n' :: tail) 4 with
      | false => rfl
      | true =>
        obtain ⟨t2, ht2⟩ := strncmp_eq_head
          (show ("soft".toList).take 4 = 's' :: ['o', 'f', 't'] from rfl) hb
        simp at ht2
    have hh : strncmp_eq ("hw".toList) ('n' :: tail) 2 = false := by
      cases hb : strncmp_eq ("hw".toList) ('n' :: tail) 2 with
      | false => rfl
      | true =>
        obtain ⟨t2, ht2⟩ := strncmp_eq_head
          (show ("hw".toList).take 2 = 'h' :: ['w'] from rfl) hb
        simp at ht2
    have ho : strncmp_eq ("on-die".toList) ('n' :: tail) 6 = false := by
      cases hb : strncmp_eq ("on-die".toList) ('n' :: tail) 6 with
      | false => rfl
      | true =>
        obtain ⟨t2, ht2⟩ := strncmp_eq_head
          (show ("on-die".toList).take 6 = 'o' :: ['n', '-', 'd', 'i', 'e'] from rfl) hb
        simp at ht2
    simp at h hs hh ho
    simp [davinci_ecc_mode_engine, h, hs, hh, ho]
  · intro h
    obtain ⟨tail, htail⟩ :=
      strncmp_eq_head (show ("soft".toList).take 4 = 's' :: ['o', 'f', 't'] from rfl) h
    subst htail
    have hh : strncmp_eq ("hw".toList) ('s' :: tail) 2 = false := by
      cases hb : strncmp_eq ("hw".toList) ('s' :: tail) 2 with
      | false => rfl
      | true =>
        obtain ⟨t2, ht2⟩ := strncmp_eq_head
          (show ("hw".toList).take 2 = 'h' :: ['w'] from rfl) hb
        simp at ht2
    have ho : strncmp_eq ("on-die".toList) ('s' :: tail) 6 = false := by
      cases hb : strncmp_eq ("on-die".toList) ('s' :: tail) 6 with
      | false => rfl
      | true =>
        obtain ⟨t2, ht2⟩ := strncmp_eq_head
          (show ("on-die".toList).take 6 = 'o' :: ['n', '-', 'd', 'i', 'e'] from rfl) hb
        simp at ht2
    simp at h hh ho
    simp [davinci_ecc_mode_engine, h, hh, ho]
  · intro h
    obtain ⟨tail, htail⟩ :=
      strncmp_eq_head (show ("hw".toList).take 2 = 'h' :: ['w'] from rfl) h
    subst htail
    have ho : strncmp_eq ("on-die".toList) ('h' :: tail) 6 = false := by
      cases hb : strncmp_eq ("on-die".toList) ('h' :: tail) 6 with
      | false => rfl
      | true =>
        obtain ⟨t2, ht2⟩ := strncmp_eq_head
          (show ("on-die".toList).take 6 = 'o' :: ['n', '-', 'd', 'i', 'e'] from rfl) hb
        simp at ht2
    simp at h ho
    simp [davinci_ecc_mode_engine, h, ho]
  · intro h
    simp at h
    simp [davinci_ecc_mode_engine, h]

/-- Closed form of a successful property-built pdata. -/
theorem nand_davinci_get_pdata_ok (cs : Nat) (ma mc mcs : Option Nat)
    (emode : Option (List Char)) (bits bw : Option Nat) (bbt key : Bool) :
    nand_davinci_get_pdata
        ⟨Option.none, true, some cs, ma, mc, mcs, emode, bits, bw, bbt, key⟩ =
      Except.ok
        { mask_ale := ma.getD 0, mask_cle := mc.getD 0, core_chipsel := cs,
          mask_chipsel := mcs.getD 0,
          engine_type := match emode with
            | some mode =>
              davinci_ecc_mode_engine .NAND_ECC_ENGINE_TYPE_INVALID mode
            | Option.none => .NAND_ECC_ENGINE_TYPE_INVALID,
          ecc_placement := .NAND_ECC_PLACEMENT_UNKNOWN,
          ecc_bits := bits.getD 0,
          options := (if bw = some 16 then NAND_BUSWIDTH_16 else 0) |||
            (if key = true then NAND_NO_SUBPAGE_WRITE else 0),
          bbt_options := if bbt = true then NAND_BBT_USE_FLASH else 0 } := by
  rcases ma with _ | va <;> rcases mc with _ | vc <;> rcases mcs with _ | vs <;>
    rcases bits with _ | vb <;> rcases bw with _ | vw <;>
    cases bbt <;> cases key <;> rcases emode with _ | mode
  all_goals first
  | by_cases hv : vw = 16
  | have hv := True.intro
  all_goals simp [nand_davinci_get_pdata, kzalloc_pdata, hv, NAND_BUSWIDTH_16,
    NAND_NO_SUBPAGE_WRITE, NAND_BBT_USE_FLASH]

/-- Claim C6: without board platform data, `nand_davinci_get_pdata`
builds the configuration from device properties; after a successful
allocation it fails with ERR_PTR(-EINVAL) exactly when the
"ti,davinci-chipselect" property is absent, and otherwise returns a pdata
whose chip-select and mask fields come from the "ti,davinci-*"
properties, whose engine type is selected by the "ti,davinci-ecc-mode"
prefix (none/soft/hw/on-die), whose options gain NAND_BUSWIDTH_16 for a
bus width of 16 and NAND_NO_SUBPAGE_WRITE for a "ti,keystone-nand"
compatible, and whose bbt_options are NAND_BBT_USE_FLASH when
"ti,davinci-nand-use-bbt" is set. -/
theorem nand_davinci_get_pdata_spec (dev : DavinciDeviceProps)
    (hpd : dev.platform_data = Option.none) (halloc : dev.alloc_ok = true) :
    (dev.chipselect = Option.none →
      nand_davinci_get_pdata dev = Except.error (-EINVAL)) ∧
    (∀ cs, dev.chipselect = some cs →
      ∃ pd, nand_davinci_get_pdata dev = Except.ok pd ∧
        pd.core_chipsel = cs ∧
        pd.mask_ale = dev.mask_ale_prop.getD 0 ∧
        pd.mask_cle = dev.mask_cle_prop.getD 0 ∧
        pd.mask_chipsel = dev.mask_chipsel_prop.getD 0 ∧
        (∀ mode, dev.ecc_mode = some mode →
          (strncmp_eq ("none".toList) mode 4 = true →
            pd.engine_type = .NAND_ECC_ENGINE_TYPE_NONE) ∧
          (strncmp_eq ("soft".toList) mode 4 = true →
            pd.engine_type = .NAND_ECC_ENGINE_TYPE_SOFT) ∧
          (strncmp_eq ("hw".toList) mode 2 = true →
            pd.engine_type = .NAND_ECC_ENGINE_TYPE_ON_HOST) ∧
          (strncmp_eq ("on-die".toList) mode 6 = true →
            pd.engine_type = .NAND_ECC_ENGINE_TYPE_ON_DIE)) ∧
        pd.options = ((if dev.buswidth = some 16 then NAND_BUSWIDTH_16 else 0) |||
          (if dev.keystone = true then NAND_NO_SUBPAGE_WRITE else 0)) ∧
        pd.bbt_options = (if dev.use_bbt = true then NAND_BBT_USE_FLASH else 0)) := by
  obtain ⟨pdf, alc, csel, ma, mc, mcs, emode, bits, bw, bbt, key⟩ := dev
  simp only at hpd halloc
  subst hpd
  subst halloc
  constructor
  · intro hcs
    simp only at hcs
    subst hcs
    simp [nand_davinci_get_pdata]
  · intro cs hcs
    simp only at hcs
    subst hcs
    refine ⟨_, nand_davinci_get_pdata_ok cs ma mc mcs emode bits bw bbt key,
      rfl, rfl, rfl, rfl, ?_, rfl, rfl⟩
    intro mode hm
    simp only at hm
    subst hm
    simpa using davinci_ecc_mode_engine_spec .NAND_ECC_ENGINE_TYPE_INVALID mode

def c6_dev : DavinciDeviceProps :=
  { platform_data := Option.none, alloc_ok := true, chipselect := some 1,
    mask_ale_prop := some 8, mask_cle_prop := some 16, mask_chipsel_prop := some 32,
    ecc_mode := some ("hw".toList), ecc_bits_prop := some 4, buswidth := some 16,
    use_bbt := true, keystone := true }

/-- Witness for claim C6 at a fully populated device-property set. -/
theorem nand_davinci_get_pdata_spec_witness :
    c6_dev.platform_data = Option.none ∧ c6_dev.alloc_ok = true ∧
    c6_dev.chipselect = some 1 ∧
    (∃ pd, nand_davinci_get_pdata c6_dev = Except.ok pd ∧
      pd.core_chipsel = 1 ∧
      pd.mask_ale = c6_dev.mask_ale_prop.getD 0 ∧
      pd.mask_cle = c6_dev.mask_cle_prop.getD 0 ∧
      pd.mask_chipsel = c6_dev.mask_chipsel_prop.getD 0 ∧
      (∀ mode, c6_dev.ecc_mode = some mode →
        (strncmp_eq ("none".toList) mode 4 = true →
          pd.engine_type = .NAND_ECC_ENGINE_TYPE_NONE) ∧
        (strncmp_eq ("soft".toList) mode 4 = true →
          pd.engine_type = .NAND_ECC_ENGINE_TYPE_SOFT) ∧
        (strncmp_eq ("hw".toList) mode 2 = true →
          pd.engine_type = .NAND_ECC_ENGINE_TYPE_ON_HOST) ∧
        (strncmp_eq ("on-die".toList) mode 6 = true →
          pd.engine_type = .NAND_ECC_ENGINE_TYPE_ON_DIE)) ∧
      pd.options = ((if c6_dev.buswidth = some 16 then NAND_BUSWIDTH_16 else 0) |||
        (if c6_dev.keystone = true then NAND_NO_SUBPAGE_WRITE else 0)) ∧
      pd.bbt_options =
        (if c6_dev.use_bbt = true then NAND_BBT_USE_FLASH else 0)) := by
  refine ⟨rfl, rfl, rfl, ?_⟩
  exact (nand_davinci_get_pdata_spec c6_dev rfl rfl).2 1 rfl
